import Mathlib

/-!
# tbtc.js `src/Deposit.js`: deposit lifecycle orchestrator

A shallow embedding of the deposit factory and deposit handle of tbtc.js.

Conventions of the embedding:

* `BN` values (arbitrary precision integers of bn.js) are `Nat`, or `Int` where
  a subtraction can go below zero.
* Ethereum addresses, Bitcoin addresses and hex strings are `String`; byte
  buffers are `List Nat` with every element below 256.
* The chain and the Bitcoin client are collaborators. What they answer is read
  from a `World`.
* Contract handles are the ones the source builds, `new web3.eth.Contract(abi)`
  (source :152, :295, :308): the functions of the ABI are members of
  `handle.methods`, the address is `handle.options.address`, and
  `handle.methods.f(..)` is an unsent transaction object until `.call()` or
  `.send()` is applied to it. A member the source reads at another path is
  `undefined`, and reading a property of it or calling it throws a `TypeError`.
  The one exception is the second copy of `createNewDepositContract`
  (:420-454), which is a piece of the other, Truffle-style copy of the file and
  is read with the handles of that copy, where `contract.f(..)` calls or sends.
* A state-mutating `send` appends a `Transaction` to the list of submitted
  transactions of the `Outcome`, so that "no transaction is submitted" is
  `sent = []`.
* A JavaScript `throw` (or a rejected `await`) is `Except.error`.
-/

namespace Tbtc

/-! ## Values -/

abbrev Address := String

abbrev Bytes := List Nat

/-- What a JavaScript function can throw in this file. -/
inductive JsError where
  /-- The source's `throw new Error(message)`. -/
  | error (message : String)
  /-- The source's `throw "..."` of a plain string. -/
  | thrown (value : String)
  /-- A `TypeError` raised by the runtime (property read or destructuring of
  `null` / `undefined`). -/
  | typeError (message : String)
  /-- A `ReferenceError` raised by the runtime for an unbound identifier. -/
  | referenceError (identifier : String)
  deriving DecidableEq, Repr

/-- The `DepositStates` enum. -/
inductive DepositStates where
  | START
  | AWAITING_SIGNER_SETUP
  | AWAITING_BTC_FUNDING_PROOF
  | FRAUD_AWAITING_BTC_FUNDING_PROOF
  | FAILED_SETUP
  | ACTIVE
  | AWAITING_WITHDRAWAL_SIGNATURE
  | AWAITING_WITHDRAWAL_PROOF
  | REDEEMED
  | COURTESY_CALL
  | FRAUD_LIQUIDATION_IN_PROGRESS
  | LIQUIDATION_IN_PROGRESS
  | LIQUIDATED
  deriving DecidableEq, Repr

/-- The number the enum assigns to a state. -/
def DepositStates.toNat : DepositStates → Nat
  | .START => 0
  | .AWAITING_SIGNER_SETUP => 1
  | .AWAITING_BTC_FUNDING_PROOF => 2
  | .FRAUD_AWAITING_BTC_FUNDING_PROOF => 3
  | .FAILED_SETUP => 4
  | .ACTIVE => 5
  | .AWAITING_WITHDRAWAL_SIGNATURE => 6
  | .AWAITING_WITHDRAWAL_PROOF => 7
  | .REDEEMED => 8
  | .COURTESY_CALL => 9
  | .FRAUD_LIQUIDATION_IN_PROGRESS => 10
  | .LIQUIDATION_IN_PROGRESS => 11
  | .LIQUIDATED => 12

/-! ## Buffers and hex strings (Node `Buffer`) -/

/-- One lower-case hex digit, as `Buffer.prototype.toString('hex')` prints it. -/
def hexDigit (n : Nat) : Char :=
  if n < 10 then Char.ofNat (48 + n) else Char.ofNat (87 + n)

/-- The value of a hex digit, upper or lower case; `none` for any other
character. -/
def hexValue (c : Char) : Option Nat :=
  if 48 ≤ c.toNat ∧ c.toNat ≤ 57 then some (c.toNat - 48)
  else if 97 ≤ c.toNat ∧ c.toNat ≤ 102 then some (c.toNat - 87)
  else if 65 ≤ c.toNat ∧ c.toNat ≤ 70 then some (c.toNat - 55)
  else none

/-- The two hex digits of one byte. -/
def byteToHex (b : Nat) : List Char :=
  [hexDigit (b / 16 % 16), hexDigit (b % 16)]

/-- The characters of `buffer.toString('hex')`. -/
def bytesToHexChars : Bytes → List Char
  | [] => []
  | b :: bs => byteToHex b ++ bytesToHexChars bs

/-- The string `buffer.toString('hex')`. -/
def Buffer.toHex (bs : Bytes) : String :=
  String.mk (bytesToHexChars bs)

/-- The bytes of `Buffer.from(chars, 'hex')`: pairs of hex digits are decoded
from the left, and decoding stops at the first pair that is not two hex
digits (a trailing single character is dropped). -/
def hexCharsToBytes : List Char → Bytes
  | c₁ :: c₂ :: rest =>
    match hexValue c₁, hexValue c₂ with
    | some hi, some lo => (16 * hi + lo) :: hexCharsToBytes rest
    | _, _ => []
  | _ => []

/-- The buffer `Buffer.from(s, 'hex')`. -/
def Buffer.fromHex (s : String) : Bytes :=
  hexCharsToBytes s.data

/-- The buffer `Buffer.from([n])`: one byte, the number reduced modulo 256. -/
def Buffer.fromLength (n : Nat) : Bytes :=
  [n % 256]

/-! ## Events, receipts and submitted transactions -/

/-- The arguments of a `Created` event. -/
structure CreatedArgs where
  _depositContractAddress : Address
  _keepAddress : Address
  deriving DecidableEq, Repr

/-- The arguments of a `RedemptionRequested` event. -/
structure RedemptionRequestedArgs where
  _utxoSize : Nat
  _redeemerOutputScript : String
  _requestedFee : Nat
  _outpoint : String
  _digest : String
  deriving DecidableEq, Repr

/-- The arguments of a token `Transfer` event. -/
structure TransferArgs where
  value : Nat
  deriving DecidableEq, Repr

/-- An event logged in a transaction receipt. -/
inductive Event where
  | Created (args : CreatedArgs)
  | RedemptionRequested (args : RedemptionRequestedArgs)
  | Transfer (args : TransferArgs)
  | Other (name : String)
  deriving DecidableEq, Repr

/-- The receipt of a mined transaction: the events it logged. -/
structure Receipt where
  events : List Event
  deriving DecidableEq, Repr

/-- One argument of the funding proof: a buffer or an integer. -/
inductive ProofArg where
  | buffer (bytes : Bytes)
  | integer (n : Nat)
  deriving DecidableEq, Repr

/-- A JavaScript value handed to the Bitcoin client as the expected amount: a
number, or the unsent transaction object of a contract method. -/
inductive JsValue where
  | number (n : Nat)
  | transactionObject (contract : Address) (method : String)
  deriving DecidableEq, Repr

/-- A state-mutating call submitted with `.send()`. -/
inductive Transaction where
  /-- The source's `depositFactoryContract.createDeposit(lotSize)` sent with
  `value` and, in the first copy, `gas`. -/
  | createDeposit (lotSize value : Nat) (gas : Option Nat)
  /-- The source's `tokenContract.approve(spender, amount)`. -/
  | tokenApprove (spender : Address) (amount : Nat)
  /-- The source's `vendingMachineContract.tbtcToBtc(deposit, outputValueBytes,
  redeemerOutputScript, account)`. -/
  | tbtcToBtc (deposit : Address) (outputValueBytes : Bytes)
      (redeemerOutputScript : String) (account : Address)
  /-- The deposit contract's `requestRedemption(outputValueBytes,
  redeemerOutputScript)`. -/
  | requestRedemption (deposit : Address) (outputValueBytes : Bytes)
      (redeemerOutputScript : String)
  /-- The deposit contract's `provideBTCFundingProof(...proofArgs)`. -/
  | provideBTCFundingProof (deposit : Address) (proofArgs : List ProofArg)
  /-- The source's `depositTokenContract.approve(spender, deposit)`. -/
  | depositTokenApprove (spender : Address) (deposit : Address)
  /-- The source's `vendingMachineContract.unqualifiedDepositToTbtc(deposit,
  ...proofArgs)`. -/
  | unqualifiedDepositToTbtc (deposit : Address) (proofArgs : List ProofArg)
  deriving DecidableEq, Repr

instance exceptDecidableEq {ε α : Type} [DecidableEq ε] [DecidableEq α] :
    DecidableEq (Except ε α) := fun a b =>
  match a, b with
  | .ok x, .ok y => if h : x = y then isTrue (by rw [h]) else isFalse (by
      intro hxy; cases hxy; exact h rfl)
  | .error x, .error y => if h : x = y then isTrue (by rw [h]) else isFalse (by
      intro hxy; cases hxy; exact h rfl)
  | .ok _, .error _ => isFalse (by intro h; cases h)
  | .error _, .ok _ => isFalse (by intro h; cases h)

/-- What a call of an `async` method leaves behind: its result (a value, or
the error it was rejected with) and the transactions it submitted, oldest
first. -/
structure Outcome (α : Type) where
  result : Except JsError α
  sent : List Transaction
  deriving DecidableEq

/-! ## The collaborators -/

/-- What `BitcoinHelpers.Address.toRawScript` does with an address: it returns
a buffer, returns `null`, or throws. -/
inductive RawScript where
  | script (raw : Bytes)
  | null
  | throws (e : JsError)
  deriving DecidableEq, Repr

/-- The parsed transaction inside an SPV proof, each field a hex string. -/
structure ParsedTransaction where
  version : String
  txInVector : String
  txOutVector : String
  locktime : String
  deriving DecidableEq, Repr

/-- The result of `BitcoinHelpers.Transaction.getSPVProof`. -/
structure SPVProof where
  parsedTransaction : ParsedTransaction
  merkleProof : String
  chainHeaders : String
  txInBlockIndex : Nat
  deriving DecidableEq, Repr

/-- A Bitcoin transaction found by the Bitcoin client (`FoundTransaction`). -/
structure BitcoinTransaction where
  transactionID : String
  outputPosition : Nat
  value : Nat
  deriving DecidableEq, Repr

/-- A settled or forever pending JavaScript promise. -/
inductive Promise (α : Type) where
  | pending
  | fulfilled (value : α)
  | rejected (reason : JsError)
  deriving DecidableEq, Repr

/-- Everything the code reads from outside: the web3 configuration, the
contracts' read-only methods, the receipts the chain gives to submitted
transactions, and the Bitcoin client. -/
structure World where
  /-- The source's `config.web3.eth.defaultAccount`. -/
  defaultAccount : Address
  /-- The source's `web3.eth.getBalance(account)`. -/
  getBalance : Address → Nat
  /-- The source's `vendingMachineContract.options.address`. -/
  vendingMachineAddress : Address
  /-- The source's `systemContract.getAllowedLotSizes()`. -/
  getAllowedLotSizes : List Nat
  /-- The source's `systemContract.isAllowedLotSize(lotSize)`. -/
  isAllowedLotSize : Nat → Bool
  /-- The source's `systemContract.createNewDepositFeeEstimate()`. -/
  createNewDepositFeeEstimate : Nat
  /-- The source's `constantsContract.getTxProofDifficultyFactor()`. -/
  getTxProofDifficultyFactor : Nat
  /-- The source's `depositTokenContract.ownerOf(deposit)`. -/
  ownerOf : Address → Address
  /-- The source's `tokenContract.balanceOf(account)`. -/
  balanceOf : Address → Nat
  /-- The lot size the deposit contract holds, what `lotSizeSatoshis().call()`
  would answer. -/
  lotSizeSatoshis : Address → Nat
  /-- The deposit contract's `utxoSize()`. -/
  utxoSize : Address → Nat
  /-- The deposit contract's `inActive()`. -/
  inActive : Address → Bool
  /-- The deposit contract's `getOwnerRedemptionTbtcRequirement(account)`. -/
  getOwnerRedemptionTbtcRequirement : Address → Address → Nat
  /-- The deposit contract's `getRedemptionTbtcRequirement(account)`. -/
  getRedemptionTbtcRequirement : Address → Address → Nat
  /-- The gas estimate of `depositFactoryContract.createDeposit(lotSize)`
  (`estimateGas()`). -/
  createDepositGasEstimate : Nat → Nat
  /-- The source's `JSON.stringify(receipt)`. -/
  jsonStringify : Receipt → String
  /-- What awaiting `.send()` of a transaction gives: its receipt, or the error
  the send is rejected with. -/
  send : Transaction → Except JsError Receipt
  /-- The source's `BitcoinHelpers.Address.toRawScript(address)`. -/
  toRawScript : String → RawScript
  /-- The source's `BitcoinHelpers.Transaction.estimateFee(constantsContract)`. -/
  estimateFee : Nat
  /-- The deposit's `bitcoinAddress` promise. -/
  bitcoinAddress : Address → Promise String
  /-- The source's `BitcoinHelpers.Transaction.findOrWaitFor(address, value)`. -/
  findOrWaitFor : String → JsValue → Promise BitcoinTransaction
  /-- The source's `BitcoinHelpers.Transaction.waitForConfirmations(tx, n)`. -/
  waitForConfirmations : BitcoinTransaction → Nat → Promise Unit
  /-- The source's `BitcoinHelpers.Transaction.getSPVProof(transactionID, n)`. -/
  getSPVProof : String → Nat → Except JsError SPVProof
  /-- The source's `BitcoinHelpers.Transaction.find(address, value)`: the
  transaction found, or nothing. -/
  findTransaction : String → JsValue → Option BitcoinTransaction
  /-- Whether `BitcoinHelpers.Transaction.checkForConfirmations(tx, n)` gives a
  truthy value. -/
  checkForConfirmations : BitcoinTransaction → Nat → Bool
  /-- The `args` of the event that `EthereumHelpers.getExistingEvent(
  systemContract, 'RedemptionRequested', filter)` finds for the deposit address
  of the filter, or nothing when there is no such event. -/
  getExistingRedemptionRequested : Address → Option RedemptionRequestedArgs
  /-- The source's `web3.eth.net.getId()`. -/
  getId : Nat

/-- The `AutoSubmitState` object: the three stage promises. The `objectId`
stands for the identity of the JavaScript object. -/
structure AutoSubmitState where
  objectId : Nat
  fundingTransaction : Promise BitcoinTransaction
  fundingConfirmations : Promise (BitcoinTransaction × Nat)
  proofTransaction : Promise Receipt
  deriving DecidableEq, Repr

/-- A `Deposit` handle: its contract address, and the memoized auto-submit
state (`undefined` until `autoSubmit` is first called). -/
structure Deposit where
  address : Address
  keepAddress : Address
  autoSubmittingState : Option AutoSubmitState
  deriving DecidableEq, Repr

/-! ## Runtime errors of member reads -/

/-- The `TypeError` of reading the property `property` of `undefined`. -/
def readOfUndefined (property : String) : JsError :=
  .typeError ("Cannot read property " ++ property ++ " of undefined")

/-- The `TypeError` of calling `expression` when its value is not a function. -/
def notAFunction (expression : String) : JsError :=
  .typeError (expression ++ " is not a function")

/-- The argument of a bn.js method that expects a `BN`: a `BN`, or a plain
JavaScript number. -/
inductive BNArgument where
  | bn (n : Nat)
  | number (n : Nat)
  deriving DecidableEq, Repr

/-- The bn.js call `base.pow(num)`. It starts by calling `num.bitLength()`,
which a `BN` has and a plain number has not. -/
def BN.pow (base : Nat) : BNArgument → Except JsError Nat
  | .bn exponent => .ok (base ^ exponent)
  | .number _ => .error (notAFunction "num.bitLength")

/-! ## Accessors -/

/-- The source's `Deposit.getSatoshiLotSize` (:361-363). The source applies
`.call()` to the member `methods.lotSizeSatoshis` itself, without the call
parentheses of `methods.lotSizeSatoshis().call()`; that invokes the method
builder and gives the unsent transaction object, not the lot size. -/
def Deposit.getSatoshiLotSize (_w : World) (d : Deposit) : JsValue :=
  .transactionObject d.address "lotSizeSatoshis"

/-- The source's `Deposit.getOwner`: the owner of the deposit token. -/
def Deposit.getOwner (w : World) (d : Deposit) : Address :=
  w.ownerOf d.address

/-- The source's `this.factory.vendingMachineContract.methods.options.address`
(:391). The `methods` object of the handle holds the functions of the vending
machine ABI, none of which is called `options`; the options of the handle are
at `vendingMachineContract.options`, where :476, :544, :636 and :674 read the
address. So `methods.options` is `undefined` and reading its `address`
throws. -/
def vendingMachineMethodsOptionsAddress (_w : World) : Except JsError Address :=
  .error (readOfUndefined "address")

/-- The source's `Deposit.inVendingMachine` (:390-392): the owner is compared
with the address read at `vendingMachineContract.methods.options.address`. -/
def Deposit.inVendingMachine (w : World) (d : Deposit) : Except JsError Bool :=
  let owner := d.getOwner w
  match vendingMachineMethodsOptionsAddress w with
  | .error e => .error e
  | .ok address => .ok (owner == address)

/-! ## Redemption cost -/

/-- The source's `Deposit.getRedemptionCost` (:579-596). On the vending
machine branch `lotSize` is what `getSatoshiLotSize` returns, and `lotSize.mul`
is a function only when that is a `BN`. -/
def Deposit.getRedemptionCost (w : World) (d : Deposit) : Except JsError Nat :=
  match d.inVendingMachine w with
  | .error e => .error e
  | .ok true =>
    let ownerRedemptionRequirement :=
      w.getOwnerRedemptionTbtcRequirement d.address w.defaultAccount
    match d.getSatoshiLotSize w with
    | .transactionObject _ _ => .error (notAFunction "lotSize.mul")
    | .number lotSize =>
      match BN.pow 10 (.bn 10) with
      | .error e => .error e
      | .ok scale => .ok (lotSize * scale + ownerRedemptionRequirement)
  | .ok false => .ok (w.getRedemptionTbtcRequirement d.address w.defaultAccount)

/-! ## Reading events -/

/-- Modelled from the spec: `readEventFromTransaction(tx, contract, name) → Event?`
of `EthereumHelpers.js`, for the name `Created`: the arguments of the first
such event of the receipt, or nothing when the receipt has none. -/
def EthereumHelpers.readCreated (transaction : Receipt) : Option CreatedArgs :=
  transaction.events.findSome? fun e =>
    match e with
    | .Created args => some args
    | _ => none

/-- Modelled from the spec: `readEventFromTransaction(tx, contract, name) → Event?`
of `EthereumHelpers.js`, for the name `RedemptionRequested`: the arguments of
the first such event of the receipt, or nothing when the receipt has none. -/
def EthereumHelpers.readRedemptionRequested (transaction : Receipt) :
    Option RedemptionRequestedArgs :=
  transaction.events.findSome? fun e =>
    match e with
    | .RedemptionRequested args => some args
    | _ => none

/-- The receipt logs a `RedemptionRequested` event. -/
def Receipt.hasRedemptionRequested (transaction : Receipt) : Bool :=
  transaction.events.any fun e =>
    match e with
    | .RedemptionRequested _ => true
    | _ => false

/-! ## bn.js -/

/-- The `count` low bytes of `v`, least significant first. -/
def littleEndianBytes : Nat → Nat → Bytes
  | 0, _ => []
  | count + 1, v => (v % 256) :: littleEndianBytes count (v / 256)

/-- The value of a little-endian byte string. -/
def littleEndianValue : Bytes → Nat
  | [] => 0
  | b :: bs => b + 256 * littleEndianValue bs

/-- The bn.js call `v.toArrayLike(Buffer, 'le', length)`: the magnitude of
`v` in `length` little-endian bytes; bn.js asserts that the magnitude fits. -/
def BN.toArrayLikeLE (v : Int) (length : Nat) : Except JsError Bytes :=
  if v.natAbs < 256 ^ length then
    .ok (littleEndianBytes length v.natAbs)
  else
    .error (.error "byte array longer than desired length")

/-! ## DepositFactory -/

/-- The source's `DepositFactory.availableSatoshiLotSizes`. -/
def DepositFactory.availableSatoshiLotSizes (w : World) : List Nat :=
  w.getAllowedLotSizes

/-- The text thrown by the balance check of `createNewDepositContract`. -/
def insufficientBalanceMessage (accountBalance creationCost : Nat) : String :=
  "Insufficient balance " ++ toString accountBalance ++ " to open " ++
    "deposit (required: " ++ toString creationCost ++ ")."

/-- The text of the error for a receipt without a `Created` event. -/
def creationEventMissingMessage (w : World) (result : Receipt) : String :=
  "Transaction failed to include keep creation event. " ++
    "Transaction was: " ++ w.jsonStringify result ++ "."

/-- The source's `DepositFactory.createNewDepositContract` (first copy, the
method of the class `DepositFactory`). After the transaction is sent the
source reads the identifier `result`, which nothing binds. -/
def DepositFactory.createNewDepositContract (w : World) (lotSize : Nat) :
    Outcome (Address × Address) :=
  let creationCost := w.createNewDepositFeeEstimate
  let accountBalance := w.getBalance w.defaultAccount
  if creationCost < accountBalance then
    ⟨.error (.thrown (insufficientBalanceMessage accountBalance creationCost)), []⟩
  else
    let createDeposit_gasEstimate := w.createDepositGasEstimate lotSize
    let createDeposit_call :=
      Transaction.createDeposit lotSize creationCost (some createDeposit_gasEstimate)
    match w.send createDeposit_call with
    | .error e => ⟨.error e, [createDeposit_call]⟩
    | .ok _ => ⟨.error (.referenceError "result"), [createDeposit_call]⟩

/-- The source's second copy of `createNewDepositContract` (lines 420-454), a
piece of the Truffle-style copy of the file: `systemContract.f()` calls and
`depositFactoryContract.createDeposit(lotSize, options)` sends. -/
def SecondCopy.createNewDepositContract (w : World) (lotSize : Nat) :
    Outcome (Address × Address) :=
  let creationCost := w.createNewDepositFeeEstimate
  let accountBalance := w.getBalance w.defaultAccount
  if creationCost < accountBalance then
    ⟨.error (.error (insufficientBalanceMessage accountBalance creationCost)), []⟩
  else
    let createDeposit_call := Transaction.createDeposit lotSize creationCost none
    match w.send createDeposit_call with
    | .error e => ⟨.error e, [createDeposit_call]⟩
    | .ok result =>
      match EthereumHelpers.readCreated result with
      | none =>
        ⟨.error (.error (creationEventMissingMessage w result)), [createDeposit_call]⟩
      | some createdEvent =>
        ⟨.ok (createdEvent._depositContractAddress, createdEvent._keepAddress),
          [createDeposit_call]⟩

/-- The source's `Deposit.forLotSize`. The keep contract handle is built from
`BondedECDSAKeepJSON`, whose import is commented out in the source. -/
def Deposit.forLotSize (w : World) (satoshiLotSize : Nat) : Outcome Deposit :=
  let created := DepositFactory.createNewDepositContract w satoshiLotSize
  match created.result with
  | .error e => ⟨.error e, created.sent⟩
  | .ok _ => ⟨.error (.referenceError "BondedECDSAKeepJSON"), created.sent⟩

/-- The text of the error `withSatoshiLotSize` throws for a lot size that is
not allowed. -/
def lotSizeNotPermittedMessage (satoshiLotSize : Nat) (available : List Nat) : String :=
  "Lot size " ++ toString satoshiLotSize ++ " is not permitted; only " ++
    "one of " ++ String.intercalate "," (available.map toString) ++ " " ++
    "can be used."

/-- The source's `DepositFactory.withSatoshiLotSize`. -/
def DepositFactory.withSatoshiLotSize (w : World) (satoshiLotSize : Nat) :
    Outcome Deposit :=
  if !w.isAllowedLotSize satoshiLotSize then
    ⟨.error (.error (lotSizeNotPermittedMessage satoshiLotSize
      (DepositFactory.availableSatoshiLotSizes w))), []⟩
  else
    Deposit.forLotSize w satoshiLotSize

/-! ## Funding proof -/

/-- The source's `Deposit.constructFundingProof`. -/
def Deposit.constructFundingProof (w : World) (bitcoinTransaction : BitcoinTransaction)
    (confirmations : Nat) : Except JsError (List ProofArg) :=
  let transactionID := bitcoinTransaction.transactionID
  let outputPosition := bitcoinTransaction.outputPosition
  match w.getSPVProof transactionID confirmations with
  | .error e => .error e
  | .ok proof =>
    let parsedTransaction := proof.parsedTransaction
    .ok [
      .buffer (Buffer.fromHex parsedTransaction.version),
      .buffer (Buffer.fromHex parsedTransaction.txInVector),
      .buffer (Buffer.fromHex parsedTransaction.txOutVector),
      .buffer (Buffer.fromHex parsedTransaction.locktime),
      .integer outputPosition,
      .buffer (Buffer.fromHex proof.merkleProof),
      .integer proof.txInBlockIndex,
      .buffer (Buffer.fromHex proof.chainHeaders)
    ]

/-! ## Redemption -/

/-- The `RedemptionDetails` record. -/
structure RedemptionDetails where
  utxoSize : Nat
  redeemerOutputScript : String
  requestedFee : Nat
  outpoint : String
  digest : String
  deriving DecidableEq, Repr

/-- The object `new Redemption(deposit, redemptionDetails)`. -/
structure Redemption where
  deposit : Address
  redemptionDetails : RedemptionDetails
  deriving DecidableEq, Repr

/-- The source's `Deposit.redemptionDetailsFromEvent`. The parameter is
destructured, which throws a `TypeError` when it is `null` or `undefined`. -/
def Deposit.redemptionDetailsFromEvent
    (redemptionRequestedEventArgs : Option RedemptionRequestedArgs) :
    Except JsError RedemptionDetails :=
  match redemptionRequestedEventArgs with
  | none => .error (.typeError "Cannot destructure property _utxoSize of undefined")
  | some args =>
    .ok {
      utxoSize := args._utxoSize
      redeemerOutputScript := args._redeemerOutputScript
      requestedFee := args._requestedFee
      outpoint := args._outpoint
      digest := args._digest
    }

/-- The text of the error for a deposit the caller may not redeem. -/
def notOwnedMessage (thisAccount vendingMachine owner : Address) : String :=
  "Redemption is currently only supported for deposits owned by " ++
    "this account (" ++ thisAccount ++ ") or the tBTC Vending Machine " ++
    "(" ++ vendingMachine ++ "). This " ++
    "deposit is owned by " ++ owner ++ "."

/-- The text of the error for a redeemer address that is not valid. -/
def invalidAddressMessage (redeemerAddress : String) : String :=
  redeemerAddress ++ " is not a valid Bitcoin address."

/-- The text of the error for a token balance below the redemption cost. -/
def insufficientTokenMessage (thisAccount : Address)
    (redemptionCost availableBalance : Nat) : String :=
  "Account " ++ thisAccount ++ " does not have the required balance of " ++
    toString redemptionCost ++ " to redeem; it only has " ++
    toString availableBalance ++ " available."

/-- The value the source binds to `redeemerOutputScript`: the text `0x`
followed by the hex of the length byte and of the raw script. It is a string
for every raw script. -/
def redeemerOutputScriptOf (rawOutputScript : Bytes) : Option String :=
  some ("0x" ++ Buffer.toHex (Buffer.fromLength rawOutputScript.length ++ rawOutputScript))

/-- Lines 641-645 of `requestRedemption`: the raw script of the address, the
text built from it, and the test of that text against `null`. -/
def Deposit.redeemerOutputScript (w : World) (redeemerAddress : String) :
    Except JsError String :=
  match w.toRawScript redeemerAddress with
  | .throws e => .error e
  | .null => .error (.typeError "Cannot read property length of null")
  | .script rawOutputScript =>
    match redeemerOutputScriptOf rawOutputScript with
    | none => .error (.error (invalidAddressMessage redeemerAddress))
    | some redeemerOutputScript => .ok redeemerOutputScript

/-- Lines 657-666 of `requestRedemption`: the UTXO size less the estimated
fee, in 8 little-endian bytes. -/
def Deposit.outputValueBytes (w : World) (d : Deposit) : Except JsError Bytes :=
  let transactionFee := w.estimateFee
  let utxoSize := w.utxoSize d.address
  let outputValue : Int := (utxoSize : Int) - (transactionFee : Int)
  BN.toArrayLikeLE outputValue 8

/-- The source's `this.factory.tokenContract.approve` (:673), read on the
handle itself and not on `tokenContract.methods` as at :692; the handle has no
such member, so the value is `undefined` and calling it throws. -/
def tokenContractApproveMember : Except JsError Unit :=
  .error (notAFunction "this.factory.tokenContract.approve")

/-- Lines 668-702 of `requestRedemption`: the approval and the redemption
request, by custody, for a given redemption cost, output value and output
script. On the direct route the approval is sent without being awaited. -/
def Deposit.submitRedemption (w : World) (d : Deposit) (inVendingMachine : Bool)
    (redemptionCost : Nat) (outputValueBytes : Bytes) (redeemerOutputScript : String) :
    Outcome Receipt :=
  if inVendingMachine then
    match tokenContractApproveMember with
    | .error e => ⟨.error e, []⟩
    | .ok _ =>
      let approve := Transaction.tokenApprove w.vendingMachineAddress redemptionCost
      match w.send approve with
      | .error e => ⟨.error e, [approve]⟩
      | .ok _ =>
        let request := Transaction.tbtcToBtc d.address outputValueBytes
          redeemerOutputScript w.defaultAccount
        match w.send request with
        | .error e => ⟨.error e, [approve, request]⟩
        | .ok transaction => ⟨.ok transaction, [approve, request]⟩
  else
    let approve := Transaction.tokenApprove d.address redemptionCost
    let request := Transaction.requestRedemption d.address outputValueBytes
      redeemerOutputScript
    match w.send request with
    | .error e => ⟨.error e, [approve, request]⟩
    | .ok transaction => ⟨.ok transaction, [approve, request]⟩

/-- Lines 705-713 of `requestRedemption`: read the `RedemptionRequested` event
of the mined transaction and wrap its details. -/
def Deposit.redemptionFromTransaction (d : Deposit) (transaction : Receipt)
    (sent : List Transaction) : Outcome Redemption :=
  let redemptionRequest := EthereumHelpers.readRedemptionRequested transaction
  match Deposit.redemptionDetailsFromEvent redemptionRequest with
  | .error e => ⟨.error e, sent⟩
  | .ok redemptionDetails => ⟨.ok ⟨d.address, redemptionDetails⟩, sent⟩

/-- The source's `Deposit.requestRedemption` (:626-714). -/
def Deposit.requestRedemption (w : World) (d : Deposit) (redeemerAddress : String) :
    Outcome Redemption :=
  match d.inVendingMachine w with
  | .error e => ⟨.error e, []⟩
  | .ok inVendingMachine =>
    let thisAccount := w.defaultAccount
    let owner := d.getOwner w
    let belongsToThisAccount := owner == thisAccount
    if !inVendingMachine && !belongsToThisAccount then
      ⟨.error (.error (notOwnedMessage thisAccount w.vendingMachineAddress owner)), []⟩
    else
      match Deposit.redeemerOutputScript w redeemerAddress with
      | .error e => ⟨.error e, []⟩
      | .ok redeemerOutputScript =>
        match d.getRedemptionCost w with
        | .error e => ⟨.error e, []⟩
        | .ok redemptionCost =>
          let availableBalance := w.balanceOf thisAccount
          if redemptionCost > availableBalance then
            ⟨.error (.error (insufficientTokenMessage thisAccount redemptionCost
              availableBalance)), []⟩
          else
            match d.outputValueBytes w with
            | .error e => ⟨.error e, []⟩
            | .ok outputValueBytes =>
              let submitted := d.submitRedemption w inVendingMachine redemptionCost
                outputValueBytes redeemerOutputScript
              match submitted.result with
              | .error e => ⟨.error e, submitted.sent⟩
              | .ok transaction => d.redemptionFromTransaction transaction submitted.sent

/-! ## Auto-submission -/

/-- A collaborator operation that a pipeline stage has started. -/
inductive Started where
  | findOrWaitFor (address : String) (expectedValue : JsValue)
  | waitForConfirmations (transaction : BitcoinTransaction) (requiredConfirmations : Nat)
  | getSPVProof (transactionID : String) (confirmations : Nat)
  | send (transaction : Transaction)
  deriving DecidableEq, Repr

/-- The part of the JavaScript runtime the pipeline touches: the allocator of
object identities and the operations started so far, oldest first. -/
structure Runtime where
  nextObjectId : Nat
  started : List Started
  deriving DecidableEq, Repr

/-- The first stage: `this.bitcoinAddress.then(...)`. The callback runs only
when the address promise is fulfilled. -/
def Deposit.fundingTransactionStage (w : World) (d : Deposit) :
    Promise BitcoinTransaction × List Started :=
  match w.bitcoinAddress d.address with
  | .pending => (.pending, [])
  | .rejected e => (.rejected e, [])
  | .fulfilled address =>
    let expectedValue := d.getSatoshiLotSize w
    (w.findOrWaitFor address expectedValue, [.findOrWaitFor address expectedValue])

/-- The second stage: `state.fundingTransaction.then(...)`. -/
def Deposit.fundingConfirmationsStage (w : World)
    (fundingTransaction : Promise BitcoinTransaction) :
    Promise (BitcoinTransaction × Nat) × List Started :=
  match fundingTransaction with
  | .pending => (.pending, [])
  | .rejected e => (.rejected e, [])
  | .fulfilled transaction =>
    let requiredConfirmations := w.getTxProofDifficultyFactor
    let waited :=
      match w.waitForConfirmations transaction requiredConfirmations with
      | .pending => Promise.pending
      | .rejected e => .rejected e
      | .fulfilled _ => .fulfilled (transaction, requiredConfirmations)
    (waited, [.waitForConfirmations transaction requiredConfirmations])

/-- The third stage: `state.fundingConfirmations.then(...)`. -/
def Deposit.proofTransactionStage (w : World) (d : Deposit)
    (fundingConfirmations : Promise (BitcoinTransaction × Nat)) :
    Promise Receipt × List Started :=
  match fundingConfirmations with
  | .pending => (.pending, [])
  | .rejected e => (.rejected e, [])
  | .fulfilled (transaction, requiredConfirmations) =>
    let asked := Started.getSPVProof transaction.transactionID requiredConfirmations
    match Deposit.constructFundingProof w transaction requiredConfirmations with
    | .error e => (.rejected e, [asked])
    | .ok proofArgs =>
      let submit := Transaction.provideBTCFundingProof d.address proofArgs
      match w.send submit with
      | .error e => (.rejected e, [asked, .send submit])
      | .ok receipt => (.fulfilled receipt, [asked, .send submit])

/-- What a call of `autoSubmit` gives: the returned state object, the deposit
handle after the call and the runtime after the call. -/
structure AutoSubmitCall where
  state : AutoSubmitState
  deposit : Deposit
  runtime : Runtime
  deriving DecidableEq, Repr

/-- The source's `Deposit.autoSubmit`. -/
def Deposit.autoSubmit (w : World) (d : Deposit) (rt : Runtime) : AutoSubmitCall :=
  match d.autoSubmittingState with
  | some existing => ⟨existing, d, rt⟩
  | none =>
    let first := d.fundingTransactionStage w
    let second := Deposit.fundingConfirmationsStage w first.1
    let third := d.proofTransactionStage w second.1
    let state : AutoSubmitState := {
      objectId := rt.nextObjectId
      fundingTransaction := first.1
      fundingConfirmations := second.1
      proofTransaction := third.1
    }
    ⟨state, { d with autoSubmittingState := some state },
      { nextObjectId := rt.nextObjectId + 1,
        started := rt.started ++ first.2 ++ second.2 ++ third.2 }⟩

/-- A further call of `autoSubmit` on the handle and runtime an earlier call
left behind, in a world that may have changed since. -/
def AutoSubmitCall.again (call : AutoSubmitCall) (w : World) : AutoSubmitCall :=
  call.deposit.autoSubmit w call.runtime

/-! ## Latest redemption details -/

/-- A lookup of an existing event by name, filtered by deposit address. -/
structure EventLookup where
  event : String
  _depositContractAddress : Address
  deriving DecidableEq, Repr

/-- What a read-only `async` method leaves behind: its result and the event
lookups it made, oldest first. -/
structure Queried (α : Type) where
  result : Except JsError α
  lookups : List EventLookup
  deriving DecidableEq

/-- The source's `this.contract.inActive()` (:728), called on the handle itself
and not as `this.contract.methods.inActive().call()` (:466, :871); the handle
has no member `inActive`, so the value is `undefined` and calling it throws. -/
def Deposit.contractInActive (_w : World) (_d : Deposit) : Except JsError Bool :=
  .error (notAFunction "this.contract.inActive")

/-- The source's `Deposit.getLatestRedemptionDetails` (:723-743); `none` is
`null`. -/
def Deposit.getLatestRedemptionDetails (w : World) (d : Deposit) :
    Queried (Option RedemptionDetails) :=
  match d.contractInActive w with
  | .error e => ⟨.error e, []⟩
  | .ok true => ⟨.ok none, []⟩
  | .ok false =>
    let lookup : EventLookup := ⟨"RedemptionRequested", d.address⟩
    match w.getExistingRedemptionRequested d.address with
    | none => ⟨.ok none, [lookup]⟩
    | some args =>
      match Deposit.redemptionDetailsFromEvent (some args) with
      | .error e => ⟨.error e, [lookup]⟩
      | .ok details => ⟨.ok (some details), [lookup]⟩

/-- The source's `Deposit.getCurrentRedemption`; `none` is `null`. A details
record is an object and so truthy. -/
def Deposit.getCurrentRedemption (w : World) (d : Deposit) : Queried (Option Redemption) :=
  let details := d.getLatestRedemptionDetails w
  match details.result with
  | .error e => ⟨.error e, details.lookups⟩
  | .ok (some details') => ⟨.ok (some ⟨d.address, details'⟩), details.lookups⟩
  | .ok none => ⟨.ok none, details.lookups⟩

/-! ## Minting -/

/-- Modelled from the spec: `readEventFromTransaction(tx, contract, name) → Event?`
of `EthereumHelpers.js`, for the name `Transfer`: the arguments of the first
such event of the receipt, or nothing when the receipt has none. -/
def EthereumHelpers.readTransfer (transaction : Receipt) : Option TransferArgs :=
  transaction.events.findSome? fun e =>
    match e with
    | .Transfer args => some args
    | _ => none

/-- The text of the error `mintTBTC` throws for a deposit that is not in the
ACTIVE state. -/
def notActiveMessage : String :=
  "Can\x27t mint TBTC with a deposit that isn\x27t in ACTIVE state."

/-- The source's `this.factory.methods` (:475, :484). The class
`DepositFactory` sets `config`, `State` and the seven contract properties and
no `methods`, so the value is `undefined` and reading a property of it
throws. -/
def factoryMethodsMember (property : String) : Except JsError Unit :=
  .error (readOfUndefined property)

/-- The source's `Deposit.mintTBTC` (:465-498). After the state test the
source reaches for the deposit token through `this.factory.methods`; the text
of the debug message at :480-483 names `requiredConfirmations`, which nothing
binds. -/
def Deposit.mintTBTC (w : World) (d : Deposit) : Outcome Nat :=
  if !w.inActive d.address then
    ⟨.error (.error notActiveMessage), []⟩
  else
    match factoryMethodsMember "depositTokenContract" with
    | .error e => ⟨.error e, []⟩
    | .ok _ =>
      let approve := Transaction.depositTokenApprove w.vendingMachineAddress d.address
      match w.send approve with
      | .error e => ⟨.error e, [approve]⟩
      | .ok _ => ⟨.error (.referenceError "requiredConfirmations"), [approve]⟩

/-- What a call of an `async` method that awaits a promise leaves behind: the
state its own promise settles in (or `pending` when it never settles) and the
transactions it submitted, oldest first. -/
structure Settled (α : Type) where
  result : Promise α
  sent : List Transaction
  deriving DecidableEq

/-- The text of the error for a deposit without a funding transaction. -/
def fundingNotFoundMessage (deposit : Address) : String :=
  "Funding transaction not found for deposit " ++ deposit ++ "."

/-- The text of the error for a funding transaction that lacks confirmations. -/
def insufficientConfirmationsMessage (requiredConfirmations : Nat) : String :=
  "Funding transaction did not have sufficient confirmations; " ++
    "expected " ++ toString requiredConfirmations ++ "."

/-- The source's `Deposit.qualifyAndMintTBTC` (:514-569). Lines 537-542 of the
source are a fragment of the other copy of `autoSubmit` (the head of its third
stage, whose end is at lines 891-896); they open a call that is not closed
inside this method, and are left out. The return statement divides by
`toBN(10).pow(18)`, with a plain number as the exponent. -/
def Deposit.qualifyAndMintTBTC (w : World) (d : Deposit) : Settled Nat :=
  match w.bitcoinAddress d.address with
  | .pending => ⟨.pending, []⟩
  | .rejected e => ⟨.rejected e, []⟩
  | .fulfilled address =>
    let expectedValue := d.getSatoshiLotSize w
    match w.findTransaction address expectedValue with
    | none => ⟨.rejected (.error (fundingNotFoundMessage d.address)), []⟩
    | some tx =>
      let requiredConfirmations := w.getTxProofDifficultyFactor
      let confirmations := w.checkForConfirmations tx requiredConfirmations
      if !confirmations then
        ⟨.rejected (.error (insufficientConfirmationsMessage requiredConfirmations)), []⟩
      else
        let approve := Transaction.depositTokenApprove w.vendingMachineAddress d.address
        match w.send approve with
        | .error e => ⟨.rejected e, [approve]⟩
        | .ok _ =>
          match Deposit.constructFundingProof w tx requiredConfirmations with
          | .error e => ⟨.rejected e, [approve]⟩
          | .ok proofArgs =>
            let mint := Transaction.unqualifiedDepositToTbtc d.address proofArgs
            match w.send mint with
            | .error e => ⟨.rejected e, [approve, mint]⟩
            | .ok transaction =>
              match EthereumHelpers.readTransfer transaction with
              | none =>
                ⟨.rejected (.typeError "Cannot read property value of undefined"),
                  [approve, mint]⟩
              | some transferEvent =>
                match BN.pow 10 (.number 18) with
                | .error e => ⟨.rejected e, [approve, mint]⟩
                | .ok scale => ⟨.fulfilled (transferEvent.value / scale), [approve, mint]⟩

/-! ## Contract resolution -/

/-- A contract artifact (the imported JSON): its name and, per network id, the
address of its deployment info when it has one. -/
structure Artifact where
  contractName : String
  networks : Nat → Option Address

/-- The seven artifacts `resolveContracts` resolves. -/
structure Artifacts where
  TBTCConstantsJSON : Artifact
  TBTCSystemJSON : Artifact
  TBTCTokenJSON : Artifact
  TBTCDepositTokenJSON : Artifact
  FeeRebateTokenJSON : Artifact
  DepositFactoryJSON : Artifact
  VendingMachineJSON : Artifact

/-- The options of a contract handle made by `new web3.eth.Contract(abi)`. -/
structure ContractHandle where
  address : Address
  sender : Address
  deriving DecidableEq, Repr

/-- The text of the error for an artifact without deployment info. -/
def noDeploymentMessage (contractName : String) (networkId : Nat) : String :=
  "No deployment info found for contract " ++ contractName ++
    ", network ID " ++ toString networkId

/-- The local function `lookupAddress` of `resolveContracts`. -/
def lookupAddress (networkId : Nat) (artifact : Artifact) : Except JsError Address :=
  match artifact.networks networkId with
  | none => .error (.error (noDeploymentMessage artifact.contractName networkId))
  | some address => .ok address

/-- The list `contracts` of `resolveContracts`: each artifact with the name of
the property that receives its handle. -/
def DepositFactory.contracts (artifacts : Artifacts) : List (Artifact × String) :=
  [(artifacts.TBTCConstantsJSON, "constantsContract"),
   (artifacts.TBTCSystemJSON, "systemContract"),
   (artifacts.TBTCTokenJSON, "tokenContract"),
   (artifacts.TBTCDepositTokenJSON, "depositTokenContract"),
   (artifacts.FeeRebateTokenJSON, "feeRebateTokenContract"),
   (artifacts.DepositFactoryJSON, "depositFactoryContract"),
   (artifacts.VendingMachineJSON, "vendingMachineContract")]

/-- What `resolveContracts` leaves behind: its result, and the properties it
assigned on the factory, in the order of assignment. -/
structure Resolved where
  result : Except JsError Unit
  assigned : List (String × ContractHandle)
  deriving DecidableEq

/-- The loop `contracts.map(...)` of `resolveContracts`: a handle is assigned
for each entry in turn, and the first entry without deployment info throws. -/
def DepositFactory.assignContracts (defaultAccount : Address) (networkId : Nat) :
    List (Artifact × String) → Resolved
  | [] => ⟨.ok (), []⟩
  | (artifact, propertyName) :: rest =>
    match lookupAddress networkId artifact with
    | .error e => ⟨.error e, []⟩
    | .ok address =>
      let later := DepositFactory.assignContracts defaultAccount networkId rest
      ⟨later.result, (propertyName, ⟨address, defaultAccount⟩) :: later.assigned⟩

/-- The source's `DepositFactory.resolveContracts`. -/
def DepositFactory.resolveContracts (w : World) (artifacts : Artifacts) : Resolved :=
  let networkId := w.getId
  DepositFactory.assignContracts w.defaultAccount networkId
    (DepositFactory.contracts artifacts)

/-! ## Sample worlds -/

/-- A receipt that logs one `RedemptionRequested` event. -/
def sampleRedemptionReceipt : Receipt :=
  ⟨[.Other "Approval", .RedemptionRequested ⟨100000, "0x160014aa", 150, "0x01", "0x02"⟩]⟩

/-- A sample SPV proof bundle. -/
def sampleProof : SPVProof where
  parsedTransaction := ⟨"01000000", "01ab", "02cd", "00000000"⟩
  merkleProof := "beef"
  chainHeaders := "c0de"
  txInBlockIndex := 3

/-- A sample Bitcoin transaction. -/
def sampleTransaction : BitcoinTransaction := ⟨"f00d", 1, 100000⟩

/-- A sample world. The deposit `0xD1` is owned by the vending machine, the
deposit `0xD2` by the default account and every other deposit by a third
party. -/
def sampleWorld : World where
  defaultAccount := "0xA11CE"
  getBalance := fun _ => 2
  vendingMachineAddress := "0xFEED"
  getAllowedLotSizes := [100000, 1000000]
  isAllowedLotSize := fun n => n == 100000 || n == 1000000
  createNewDepositFeeEstimate := 1
  getTxProofDifficultyFactor := 6
  ownerOf := fun deposit =>
    if deposit == "0xD1" then "0xFEED" else if deposit == "0xD2" then "0xA11CE" else "0xB0B"
  balanceOf := fun _ => 10 ^ 10
  lotSizeSatoshis := fun _ => 1
  utxoSize := fun _ => 100000
  inActive := fun _ => true
  getOwnerRedemptionTbtcRequirement := fun _ _ => 0
  getRedemptionTbtcRequirement := fun _ _ => 0
  createDepositGasEstimate := fun _ => 21000
  jsonStringify := fun _ => "\x7b\x7d"
  send := fun _ => .ok ⟨[]⟩
  toRawScript := fun address => if address == "tb1qsample" then .script [0, 1, 170] else .null
  estimateFee := 150
  bitcoinAddress := fun _ => .fulfilled "tb1qfunding"
  findOrWaitFor := fun _ _ => .fulfilled sampleTransaction
  waitForConfirmations := fun _ _ => .fulfilled ()
  getSPVProof := fun _ _ => .ok sampleProof
  findTransaction := fun _ _ => some sampleTransaction
  checkForConfirmations := fun _ _ => true
  getExistingRedemptionRequested := fun _ => none
  getId := 3

/-- The sample world with an account balance below the creation fee. -/
def poorWorld : World :=
  { sampleWorld with getBalance := fun _ => 1, createNewDepositFeeEstimate := 2 }

/-- The sample world with a redemption requirement of `10^10` and a token
balance of 5. -/
def shortWorld : World :=
  { sampleWorld with
    getRedemptionTbtcRequirement := fun _ _ => 10 ^ 10
    balanceOf := fun _ => 5 }

/-- The sample world with creation fee 2 and account balance 1, where every
mined transaction logs a `Created` event. -/
def creatingWorld : World :=
  { sampleWorld with
    getBalance := fun _ => 1
    createNewDepositFeeEstimate := 2
    send := fun _ => .ok ⟨[.Created ⟨"0xD9", "0xCAFE"⟩]⟩ }

/-- The sample world with no deposit ACTIVE and a `RedemptionRequested` event
for deposit `0xD2` only. -/
def redeemingWorld : World :=
  { sampleWorld with
    inActive := fun _ => false
    getExistingRedemptionRequested := fun deposit =>
      if deposit == "0xD2" then some ⟨100000, "0x160014aa", 150, "0x01", "0x02"⟩ else none }

/-- The sample world with no funding transaction at any address. -/
def unfundedWorld : World :=
  { sampleWorld with findTransaction := fun _ _ => none }

/-- The sample world with a funding transaction that lacks confirmations. -/
def unconfirmedWorld : World :=
  { sampleWorld with checkForConfirmations := fun _ _ => false }

/-- The sample world with a Bitcoin client whose search fails. -/
def searchFailingWorld : World :=
  { sampleWorld with findOrWaitFor := fun _ _ => .rejected (.error "electrum down") }

/-- The sample world with a Bitcoin client whose confirmation wait fails. -/
def waitFailingWorld : World :=
  { sampleWorld with waitForConfirmations := fun _ _ => .rejected (.error "reorg") }

/-- The sample world where every mined transaction logs a `Transfer` of
25 * 10^17 base units. -/
def mintingWorld : World :=
  { sampleWorld with send := fun _ => .ok ⟨[.Transfer ⟨25 * 10 ^ 17⟩]⟩ }

/-- The sample world where every mined transaction logs the sample
`RedemptionRequested` event. -/
def redeemableWorld : World :=
  { sampleWorld with send := fun _ => .ok sampleRedemptionReceipt }

/-- An artifact deployed on network 3 only. -/
def deployedArtifact (contractName : String) (address : Address) : Artifact :=
  ⟨contractName, fun networkId => if networkId = 3 then some address else none⟩

/-- Seven sample artifacts, each deployed on network 3 only. -/
def sampleArtifacts : Artifacts where
  TBTCConstantsJSON := deployedArtifact "TBTCConstants" "0xC1"
  TBTCSystemJSON := deployedArtifact "TBTCSystem" "0xC2"
  TBTCTokenJSON := deployedArtifact "TBTCToken" "0xC3"
  TBTCDepositTokenJSON := deployedArtifact "TBTCDepositToken" "0xC4"
  FeeRebateTokenJSON := deployedArtifact "FeeRebateToken" "0xC5"
  DepositFactoryJSON := deployedArtifact "DepositFactory" "0xC6"
  VendingMachineJSON := deployedArtifact "VendingMachine" "0xFEED"

/-- The sample artifacts with a token artifact that has no deployment at all. -/
def incompleteArtifacts : Artifacts :=
  { sampleArtifacts with TBTCTokenJSON := ⟨"TBTCToken", fun _ => none⟩ }

/-- A deposit handle for the contract at `address`, before any call of
`autoSubmit`. -/
def depositAt (address : Address) : Deposit := ⟨address, "0xCAFE", none⟩

/-! ## The custody test and the redemption cost (C1, C2) -/

/-- Reading the vending machine address at `methods.options.address` throws,
so `inVendingMachine` is rejected for every deposit. -/
theorem inVendingMachine_throws (w : World) (d : Deposit) :
    d.inVendingMachine w = .error (readOfUndefined "address") := by
  rfl

/-- The call `getRedemptionCost` is rejected by the `TypeError` of
`inVendingMachine` for every deposit, whatever its owner. -/
theorem getRedemptionCost_throws (w : World) (d : Deposit) :
    d.getRedemptionCost w = .error (readOfUndefined "address") := by
  rfl

/-- The accessor `getSatoshiLotSize` gives the unsent transaction object of
`lotSizeSatoshis`, whatever lot size the contract holds. -/
theorem getSatoshiLotSize_transactionObject (w : World) (d : Deposit) :
    d.getSatoshiLotSize w = .transactionObject d.address "lotSizeSatoshis" := by
  rfl

/-- C1, the code at two deposits. Deposit `0xD1` is owned by the vending
machine and deposit `0xD2` by the caller; for both `getRedemptionCost` is
rejected with the `TypeError` of reading `address` of `undefined`, where the
claim has it return `lotSize * 10^10 + ownerRedemptionRequirement` and the
direct redemption requirement; and `getSatoshiLotSize` gives the transaction
object of `lotSizeSatoshis`, not the lot size 1. -/
theorem getRedemptionCost_rejected :
    (depositAt "0xD1").getOwner sampleWorld = sampleWorld.vendingMachineAddress ∧
    (depositAt "0xD1").getRedemptionCost sampleWorld =
      .error (.typeError "Cannot read property address of undefined") ∧
    (depositAt "0xD2").getOwner sampleWorld = sampleWorld.defaultAccount ∧
    (depositAt "0xD2").getRedemptionCost sampleWorld =
      .error (.typeError "Cannot read property address of undefined") ∧
    sampleWorld.lotSizeSatoshis "0xD1" = 1 ∧
    (depositAt "0xD1").getSatoshiLotSize sampleWorld =
      .transactionObject "0xD1" "lotSizeSatoshis" := by
  decide

/-- C2, the code at a vending machine deposit and a self-owned deposit of the
same lot size: `getRedemptionCost` returns a value for neither, so there are
no two returned values that differ by the owner redemption requirement. -/
theorem redemptionCost_difference_undefined :
    (depositAt "0xD1").getOwner sampleWorld = sampleWorld.vendingMachineAddress ∧
    (depositAt "0xD2").getOwner sampleWorld = sampleWorld.defaultAccount ∧
    sampleWorld.lotSizeSatoshis "0xD1" = sampleWorld.lotSizeSatoshis "0xD2" ∧
    (∀ cost : Nat, (depositAt "0xD1").getRedemptionCost sampleWorld ≠ .ok cost) ∧
    (∀ cost : Nat, (depositAt "0xD2").getRedemptionCost sampleWorld ≠ .ok cost) ∧
    ¬ ∃ vendingMachineCost selfOwnedCost : Nat,
      (depositAt "0xD1").getRedemptionCost sampleWorld = .ok vendingMachineCost ∧
      (depositAt "0xD2").getRedemptionCost sampleWorld = .ok selfOwnedCost ∧
      (vendingMachineCost : Int) - (selfOwnedCost : Int) =
        (sampleWorld.getOwnerRedemptionTbtcRequirement "0xD1" sampleWorld.defaultAccount : Int) := by
  refine ⟨by decide, by decide, by decide, ?_, ?_, ?_⟩
  · intro cost h
    rw [getRedemptionCost_throws] at h
    cases h
  · intro cost h
    rw [getRedemptionCost_throws] at h
    cases h
  · rintro ⟨a, b, h, _⟩
    rw [getRedemptionCost_throws] at h
    cases h

/-! ## Ownership check of `requestRedemption` (C3) -/

/-- The call `requestRedemption` is rejected by the `TypeError` of its first
statement, the call of `inVendingMachine`, for every deposit and address, and
submits nothing. -/
theorem requestRedemption_throws (w : World) (d : Deposit) (redeemerAddress : String) :
    d.requestRedemption w redeemerAddress = ⟨.error (readOfUndefined "address"), []⟩ := by
  rfl

/-- C3, the code at a deposit owned by a third party: deposit `0xD3` is owned
by `0xB0B`, neither the caller nor the vending machine, and `requestRedemption`
is rejected with the `TypeError` of reading `address` of `undefined`, not with
the ownership error. Nothing is submitted. -/
theorem requestRedemption_not_owner_rejected :
    (depositAt "0xD3").getOwner sampleWorld = "0xB0B" ∧
    (depositAt "0xD3").getOwner sampleWorld ≠ sampleWorld.defaultAccount ∧
    (depositAt "0xD3").getOwner sampleWorld ≠ sampleWorld.vendingMachineAddress ∧
    (depositAt "0xD3").requestRedemption sampleWorld "tb1qsample" =
      ⟨.error (.typeError "Cannot read property address of undefined"), []⟩ ∧
    (depositAt "0xD3").requestRedemption sampleWorld "tb1qsample" ≠
      ⟨.error (.error (notOwnedMessage sampleWorld.defaultAccount
        sampleWorld.vendingMachineAddress "0xB0B")), []⟩ := by
  decide

/-! ## Balance check of `createNewDepositContract` (C4) -/

/-- Both copies of `createNewDepositContract` throw the insufficient balance
text, with nothing submitted, exactly when the creation fee is below the
account balance. -/
theorem createNewDepositContract_throws_iff (w : World) (lotSize : Nat) :
    (DepositFactory.createNewDepositContract w lotSize =
        ⟨.error (.thrown (insufficientBalanceMessage (w.getBalance w.defaultAccount)
          w.createNewDepositFeeEstimate)), []⟩ ↔
      w.createNewDepositFeeEstimate < w.getBalance w.defaultAccount) ∧
    (SecondCopy.createNewDepositContract w lotSize =
        ⟨.error (.error (insufficientBalanceMessage (w.getBalance w.defaultAccount)
          w.createNewDepositFeeEstimate)), []⟩ ↔
      w.createNewDepositFeeEstimate < w.getBalance w.defaultAccount) := by
  by_cases h : w.createNewDepositFeeEstimate < w.getBalance w.defaultAccount
  · simp [DepositFactory.createNewDepositContract, SecondCopy.createNewDepositContract, h]
  · simp only [DepositFactory.createNewDepositContract, SecondCopy.createNewDepositContract, h,
      if_false, iff_false]
    constructor
    · split <;> simp
    · repeat' split
      all_goals simp

/-- C4, the code at two inputs. With fee 1 and balance 2 (the fee does not
exceed the balance) both copies fail with the insufficient balance text and
submit nothing; with fee 2 and balance 1 (the fee exceeds the balance) both
copies submit the `createDeposit` transaction. -/
theorem createNewDepositContract_balance_check :
    sampleWorld.createNewDepositFeeEstimate = 1 ∧
    sampleWorld.getBalance sampleWorld.defaultAccount = 2 ∧
    DepositFactory.createNewDepositContract sampleWorld 100000 =
      ⟨.error (.thrown "Insufficient balance 2 to open deposit (required: 1)."), []⟩ ∧
    SecondCopy.createNewDepositContract sampleWorld 100000 =
      ⟨.error (.error "Insufficient balance 2 to open deposit (required: 1)."), []⟩ ∧
    poorWorld.createNewDepositFeeEstimate = 2 ∧
    poorWorld.getBalance poorWorld.defaultAccount = 1 ∧
    (DepositFactory.createNewDepositContract poorWorld 100000).sent =
      [.createDeposit 100000 2 (some 21000)] ∧
    (SecondCopy.createNewDepositContract poorWorld 100000).sent =
      [.createDeposit 100000 2 none] := by
  decide

/-! ## Address check of `requestRedemption` (C5) -/

/-- The value the source compares with `null` is a string for every raw
script, so the comparison never holds. -/
theorem redeemerOutputScriptOf_ne_none (rawOutputScript : Bytes) :
    redeemerOutputScriptOf rawOutputScript ≠ none := by
  simp [redeemerOutputScriptOf]

/-- For an address for which `toRawScript` returns `null`, lines 641-645 throw
the `TypeError` of reading `rawOutputScript.length`. -/
theorem redeemerOutputScript_null_script (w : World) (redeemerAddress : String)
    (hAddress : w.toRawScript redeemerAddress = .null) :
    Deposit.redeemerOutputScript w redeemerAddress =
      .error (.typeError "Cannot read property length of null") := by
  simp [Deposit.redeemerOutputScript, hAddress]

/-- Lines 641-645 never throw the invalid address error of their own: when
`toRawScript` returns (a script or `null`), the result is not that error. -/
theorem redeemerOutputScript_never_invalid (w : World) (redeemerAddress : String)
    (hReturns : ∀ e, w.toRawScript redeemerAddress ≠ .throws e) :
    Deposit.redeemerOutputScript w redeemerAddress ≠
      .error (.error (invalidAddressMessage redeemerAddress)) := by
  unfold Deposit.redeemerOutputScript
  cases h : w.toRawScript redeemerAddress with
  | throws e => exact absurd h (hReturns e)
  | null => simp
  | script raw => simp [redeemerOutputScriptOf]

/-- C5, the code at an address that does not decode: the caller owns deposit
`0xD2` and `toRawScript` returns `null` for `not-an-address`. The address lines
of `requestRedemption` (641-645) throw the `TypeError` of reading
`rawOutputScript.length`, and the call as a whole is rejected with a
`TypeError` by its first statement; neither gives the text
`not-an-address is not a valid Bitcoin address.`, and nothing is submitted. -/
theorem requestRedemption_invalid_address :
    sampleWorld.toRawScript "not-an-address" = .null ∧
    (depositAt "0xD2").getOwner sampleWorld = sampleWorld.defaultAccount ∧
    Deposit.redeemerOutputScript sampleWorld "not-an-address" =
      .error (.typeError "Cannot read property length of null") ∧
    Deposit.redeemerOutputScript sampleWorld "not-an-address" ≠
      .error (.error (invalidAddressMessage "not-an-address")) ∧
    (depositAt "0xD2").requestRedemption sampleWorld "not-an-address" =
      ⟨.error (.typeError "Cannot read property address of undefined"), []⟩ ∧
    (depositAt "0xD2").requestRedemption sampleWorld "not-an-address" ≠
      ⟨.error (.error (invalidAddressMessage "not-an-address")), []⟩ := by
  decide

/-! ## Token balance check of `requestRedemption` (C6) -/

/-- C6, the code at a caller whose balance is below the cost: the caller owns
deposit `0xD2`, the address decodes, the redemption requirement of the
contract is `10^10` and the token balance is 5. The call is rejected with the
`TypeError` of reading `address` of `undefined` (first statement, and again
inside `getRedemptionCost`), not with the insufficient balance error. -/
theorem requestRedemption_balance_rejected :
    (depositAt "0xD2").getOwner shortWorld = shortWorld.defaultAccount ∧
    shortWorld.toRawScript "tb1qsample" = .script [0, 1, 170] ∧
    shortWorld.getRedemptionTbtcRequirement "0xD2" shortWorld.defaultAccount = 10 ^ 10 ∧
    shortWorld.balanceOf shortWorld.defaultAccount = 5 ∧
    (depositAt "0xD2").getRedemptionCost shortWorld =
      .error (.typeError "Cannot read property address of undefined") ∧
    (depositAt "0xD2").requestRedemption shortWorld "tb1qsample" =
      ⟨.error (.typeError "Cannot read property address of undefined"), []⟩ ∧
    (depositAt "0xD2").requestRedemption shortWorld "tb1qsample" ≠
      ⟨.error (.error (insufficientTokenMessage shortWorld.defaultAccount (10 ^ 10) 5)), []⟩ := by
  decide

/-! ## Missing `RedemptionRequested` event (C7) -/

/-- A receipt without a `RedemptionRequested` event makes the end of
`requestRedemption` fail with the `TypeError` of the destructuring. -/
theorem redemptionFromTransaction_event_missing (d : Deposit) (transaction : Receipt)
    (sent : List Transaction)
    (h : EthereumHelpers.readRedemptionRequested transaction = none) :
    d.redemptionFromTransaction transaction sent =
      ⟨.error (.typeError "Cannot destructure property _utxoSize of undefined"), sent⟩ := by
  simp [Deposit.redemptionFromTransaction, h, Deposit.redemptionDetailsFromEvent]

/-- C7, the code at a receipt without the event. In the sample world every
transaction is mined with an empty receipt. On the direct route the submitting
lines (668-702) send the approval and the redemption request of deposit `0xD2`
and get the empty receipt; the closing lines (705-713) then hand the missing
event to `redemptionDetailsFromEvent`, untested, and are rejected with the
`TypeError` of destructuring `undefined`. The call as a whole is rejected with
a `TypeError` by its first statement. Neither is a protocol error. -/
theorem requestRedemption_event_missing :
    sampleWorld.send (.requestRedemption "0xD2" [10, 134, 1, 0, 0, 0, 0, 0] "0x030001aa") =
      .ok ⟨[]⟩ ∧
    EthereumHelpers.readRedemptionRequested ⟨[]⟩ = none ∧
    Deposit.redemptionDetailsFromEvent none =
      .error (.typeError "Cannot destructure property _utxoSize of undefined") ∧
    (depositAt "0xD2").submitRedemption sampleWorld false 0 [10, 134, 1, 0, 0, 0, 0, 0]
        "0x030001aa" =
      ⟨.ok ⟨[]⟩, [.tokenApprove "0xD2" 0,
        .requestRedemption "0xD2" [10, 134, 1, 0, 0, 0, 0, 0] "0x030001aa"]⟩ ∧
    (depositAt "0xD2").redemptionFromTransaction ⟨[]⟩
        [.tokenApprove "0xD2" 0,
          .requestRedemption "0xD2" [10, 134, 1, 0, 0, 0, 0, 0] "0x030001aa"] =
      ⟨.error (.typeError "Cannot destructure property _utxoSize of undefined"),
        [.tokenApprove "0xD2" 0,
          .requestRedemption "0xD2" [10, 134, 1, 0, 0, 0, 0, 0] "0x030001aa"]⟩ ∧
    (depositAt "0xD2").requestRedemption sampleWorld "tb1qsample" =
      ⟨.error (.typeError "Cannot read property address of undefined"), []⟩ := by
  decide

/-! ## Idempotence of `autoSubmit` (C8) -/

/-- After a call of `autoSubmit` the handle holds the returned state object. -/
theorem autoSubmit_remembers (w : World) (d : Deposit) (rt : Runtime) :
    (d.autoSubmit w rt).deposit.autoSubmittingState = some (d.autoSubmit w rt).state := by
  unfold Deposit.autoSubmit
  cases h : d.autoSubmittingState <;> simp [h]

/-- A call on a handle that holds its state object changes nothing. -/
theorem again_of_remembered (call : AutoSubmitCall) (w : World)
    (h : call.deposit.autoSubmittingState = some call.state) : call.again w = call := by
  simp [AutoSubmitCall.again, Deposit.autoSubmit, h]

/-- Any number of calls on a handle that holds its state object change
nothing. -/
theorem foldl_again_of_remembered (later : List World) (call : AutoSubmitCall)
    (h : call.deposit.autoSubmittingState = some call.state) :
    later.foldl AutoSubmitCall.again call = call := by
  induction later with
  | nil => rfl
  | cons w ws ih => rw [List.foldl_cons, again_of_remembered call w h, ih]

/-- C8: after a first call of `autoSubmit`, every later call (the second and
any further one, whatever the world has become) returns the state object of
the first call, with the same identity and the same three stage results,
leaves the handle as it was and starts no further operation. -/
theorem autoSubmit_idempotent (w : World) (d : Deposit) (rt : Runtime) (later : List World) :
    later.foldl AutoSubmitCall.again (d.autoSubmit w rt) = d.autoSubmit w rt :=
  foldl_again_of_remembered later _ (autoSubmit_remembers w d rt)

/-! ## Funding proof (C9) -/

/-- C9: when the Bitcoin client returns the SPV proof bundle `proof` for
`(tx.transactionID, n)`, `constructFundingProof(tx, n)` returns the eight
element list version, txInVector, txOutVector, locktime (hex decoded),
`tx.outputPosition` (an integer), merkleProof (hex decoded), txInBlockIndex
(an integer), chainHeaders (hex decoded), in this order; and any world that
returns the same bundle gives the same list. -/
theorem constructFundingProof_fields (w : World) (tx : BitcoinTransaction) (n : Nat)
    (proof : SPVProof) (h : w.getSPVProof tx.transactionID n = .ok proof) :
    Deposit.constructFundingProof w tx n = .ok [
      .buffer (Buffer.fromHex proof.parsedTransaction.version),
      .buffer (Buffer.fromHex proof.parsedTransaction.txInVector),
      .buffer (Buffer.fromHex proof.parsedTransaction.txOutVector),
      .buffer (Buffer.fromHex proof.parsedTransaction.locktime),
      .integer tx.outputPosition,
      .buffer (Buffer.fromHex proof.merkleProof),
      .integer proof.txInBlockIndex,
      .buffer (Buffer.fromHex proof.chainHeaders)] ∧
    (∀ w' : World, w'.getSPVProof tx.transactionID n = .ok proof →
      Deposit.constructFundingProof w' tx n = Deposit.constructFundingProof w tx n) := by
  constructor
  · simp [Deposit.constructFundingProof, h]
  · intro w' h'
    simp [Deposit.constructFundingProof, h, h']

/-- C9 at the sample transaction and proof bundle. -/
theorem constructFundingProof_fields_witness :
    Deposit.constructFundingProof sampleWorld sampleTransaction 6 = .ok [
      .buffer [1, 0, 0, 0], .buffer [1, 171], .buffer [2, 205], .buffer [0, 0, 0, 0],
      .integer 1, .buffer [190, 239], .integer 3, .buffer [192, 222]] :=
  (constructFundingProof_fields sampleWorld sampleTransaction 6 sampleProof (by decide)).1

/-! ## Lot size gate (C10) -/

/-- For a lot size the system contract does not allow, `withSatoshiLotSize`
fails, with nothing submitted, with the error whose message lists the sizes
`getAllowedLotSizes` returns, joined by commas. -/
theorem withSatoshiLotSize_not_allowed (w : World) (L : Nat)
    (h : w.isAllowedLotSize L = false) :
    DepositFactory.withSatoshiLotSize w L =
      ⟨.error (.error ("Lot size " ++ toString L ++ " is not permitted; only one of " ++
        String.intercalate "," (w.getAllowedLotSizes.map toString) ++
        " can be used.")), []⟩ := by
  simp [DepositFactory.withSatoshiLotSize, h, lotSizeNotPermittedMessage,
    DepositFactory.availableSatoshiLotSizes, String.append_assoc]

/-- The first copy of `createNewDepositContract` returns no address pair:
after the send it reads the unbound `result`. -/
theorem createNewDepositContract_never_returns (w : World) (lotSize : Nat)
    (created : Address × Address) :
    (DepositFactory.createNewDepositContract w lotSize).result ≠ .ok created := by
  unfold DepositFactory.createNewDepositContract
  simp only []
  split
  · simp
  · split <;> simp

/-- No call of `withSatoshiLotSize` returns a `Deposit`, for any lot size. -/
theorem withSatoshiLotSize_never_returns (w : World) (L : Nat) (deposit : Deposit) :
    (DepositFactory.withSatoshiLotSize w L).result ≠ .ok deposit := by
  unfold DepositFactory.withSatoshiLotSize Deposit.forLotSize
  simp only []
  split
  · simp
  · split <;> simp

/-- C10, the code at an allowed lot size. The system contract allows 100000,
the creation fee is 2, the account balance is 1 and the `createDeposit`
transaction is mined with a `Created` event. `withSatoshiLotSize(100000)`
submits `createDeposit` and is then rejected with the `ReferenceError` of the
unbound `result`; no `Deposit` is created. For the lot size 5, which is not
allowed, it fails with the message that lists the allowed sizes. -/
theorem withSatoshiLotSize_allowed_rejected :
    creatingWorld.isAllowedLotSize 100000 = true ∧
    creatingWorld.createNewDepositFeeEstimate = 2 ∧
    creatingWorld.getBalance creatingWorld.defaultAccount = 1 ∧
    creatingWorld.send (.createDeposit 100000 2 (some 21000)) =
      .ok ⟨[.Created ⟨"0xD9", "0xCAFE"⟩]⟩ ∧
    DepositFactory.withSatoshiLotSize creatingWorld 100000 =
      ⟨.error (.referenceError "result"), [.createDeposit 100000 2 (some 21000)]⟩ ∧
    creatingWorld.isAllowedLotSize 5 = false ∧
    creatingWorld.getAllowedLotSizes = [100000, 1000000] ∧
    DepositFactory.withSatoshiLotSize creatingWorld 5 =
      ⟨.error (.error
        "Lot size 5 is not permitted; only one of 100000,1000000 can be used."), []⟩ := by
  decide

/-! ## Redemption details (C11, C12) -/

/-- C11: for every `RedemptionRequested` args record, `redemptionDetailsFromEvent`
returns the record of the five fields utxoSize, redeemerOutputScript,
requestedFee, outpoint and digest; the output script, outpoint and digest are
the ones of the event, unchanged, and utxoSize and requestedFee have the
numeric values of `_utxoSize` and `_requestedFee`. -/
theorem redemptionDetailsFromEvent_fields (args : RedemptionRequestedArgs) :
    Deposit.redemptionDetailsFromEvent (some args) =
      .ok { utxoSize := args._utxoSize
            redeemerOutputScript := args._redeemerOutputScript
            requestedFee := args._requestedFee
            outpoint := args._outpoint
            digest := args._digest } := by
  rfl

/-- The call `getLatestRedemptionDetails` is rejected by the `TypeError` of
calling `this.contract.inActive` for every deposit, before any event lookup. -/
theorem getLatestRedemptionDetails_throws (w : World) (d : Deposit) :
    d.getLatestRedemptionDetails w = ⟨.error (notAFunction "this.contract.inActive"), []⟩ := by
  rfl

/-- C12, the code at three deposits: an ACTIVE deposit, a deposit that is not
ACTIVE and has no `RedemptionRequested` event, and one that is not ACTIVE and
has such an event. For each `getLatestRedemptionDetails` is rejected with the
`TypeError` of calling `this.contract.inActive`, where the claim has it return
`null`, `null` and the parsed details; `getCurrentRedemption` is rejected with
it. -/
theorem getLatestRedemptionDetails_rejected :
    sampleWorld.inActive "0xD2" = true ∧
    (depositAt "0xD2").getLatestRedemptionDetails sampleWorld =
      ⟨.error (.typeError "this.contract.inActive is not a function"), []⟩ ∧
    (depositAt "0xD2").getCurrentRedemption sampleWorld =
      ⟨.error (.typeError "this.contract.inActive is not a function"), []⟩ ∧
    redeemingWorld.inActive "0xD1" = false ∧
    redeemingWorld.getExistingRedemptionRequested "0xD1" = none ∧
    (depositAt "0xD1").getLatestRedemptionDetails redeemingWorld =
      ⟨.error (.typeError "this.contract.inActive is not a function"), []⟩ ∧
    redeemingWorld.inActive "0xD2" = false ∧
    redeemingWorld.getExistingRedemptionRequested "0xD2" =
      some ⟨100000, "0x160014aa", 150, "0x01", "0x02"⟩ ∧
    (depositAt "0xD2").getLatestRedemptionDetails redeemingWorld =
      ⟨.error (.typeError "this.contract.inActive is not a function"), []⟩ := by
  decide

/-! ## Minting (C13, C14, C18) -/

/-- C13: when the deposit contract reports that the deposit is not ACTIVE,
`mintTBTC` fails with the not-ACTIVE error and submits no transaction. -/
theorem mintTBTC_not_active (w : World) (d : Deposit) (h : w.inActive d.address = false) :
    d.mintTBTC w =
      ⟨.error (.error "Can\x27t mint TBTC with a deposit that isn\x27t in ACTIVE state."), []⟩ := by
  simp [Deposit.mintTBTC, h, notActiveMessage]

/-- C13 at a world where no deposit is ACTIVE. -/
theorem mintTBTC_not_active_witness :
    (depositAt "0xD2").mintTBTC redeemingWorld =
      ⟨.error (.error "Can\x27t mint TBTC with a deposit that isn\x27t in ACTIVE state."), []⟩ :=
  mintTBTC_not_active redeemingWorld (depositAt "0xD2") (by decide)

/-- C14: once the Bitcoin address of the deposit is known, `qualifyAndMintTBTC`
fails with the not-found error and no submitted transaction when no funding
transaction of the lot size is found at that address, and with the
confirmations error and no submitted transaction when the found transaction
does not have `getTxProofDifficultyFactor` confirmations. -/
theorem qualifyAndMintTBTC_proof_errors (w : World) (d : Deposit) (address : String)
    (hAddress : w.bitcoinAddress d.address = .fulfilled address) :
    (w.findTransaction address (d.getSatoshiLotSize w) = none →
      d.qualifyAndMintTBTC w =
        ⟨.rejected (.error ("Funding transaction not found for deposit " ++ d.address ++ ".")),
          []⟩) ∧
    (∀ tx : BitcoinTransaction, w.findTransaction address (d.getSatoshiLotSize w) = some tx →
      w.checkForConfirmations tx w.getTxProofDifficultyFactor = false →
      d.qualifyAndMintTBTC w =
        ⟨.rejected (.error ("Funding transaction did not have sufficient confirmations; " ++
          "expected " ++ toString w.getTxProofDifficultyFactor ++ ".")), []⟩) := by
  constructor
  · intro h
    simp [Deposit.qualifyAndMintTBTC, hAddress, h, fundingNotFoundMessage]
  · intro tx h hc
    simp [Deposit.qualifyAndMintTBTC, hAddress, h, hc, insufficientConfirmationsMessage]

/-- C14 at a world without a funding transaction and at a world with an
unconfirmed one. -/
theorem qualifyAndMintTBTC_proof_errors_witness :
    (depositAt "0xD2").qualifyAndMintTBTC unfundedWorld =
      ⟨.rejected (.error "Funding transaction not found for deposit 0xD2."), []⟩ ∧
    (depositAt "0xD2").qualifyAndMintTBTC unconfirmedWorld =
      ⟨.rejected (.error
        "Funding transaction did not have sufficient confirmations; expected 6."), []⟩ :=
  ⟨(qualifyAndMintTBTC_proof_errors unfundedWorld (depositAt "0xD2") "tb1qfunding"
      (by decide)).1 (by decide),
    (qualifyAndMintTBTC_proof_errors unconfirmedWorld (depositAt "0xD2") "tb1qfunding"
      (by decide)).2 sampleTransaction (by decide) (by decide)⟩

/-- The bn.js call `toBN(10).pow(18)` of the return statement throws: the
exponent is a plain number. With a `BN` exponent, as at :588, it gives the
power. -/
theorem pow_plain_number :
    BN.pow 10 (.number 18) = .error (.typeError "num.bitLength is not a function") ∧
    BN.pow 10 (.bn 10) = .ok (10 ^ 10) := by
  decide

/-- No call of `qualifyAndMintTBTC` is fulfilled with an amount. -/
theorem qualifyAndMintTBTC_never_fulfilled (w : World) (d : Deposit) (amount : Nat) :
    (d.qualifyAndMintTBTC w).result ≠ .fulfilled amount := by
  unfold Deposit.qualifyAndMintTBTC
  simp only [BN.pow]
  repeat' split
  all_goals simp

/-- C18, the code at a `Transfer` of 25 * 10^17 base units: the funding
transaction is found and confirmed, the approval and the qualify and mint
transaction are mined, the receipt logs the `Transfer`, and
`qualifyAndMintTBTC` is rejected with the `TypeError` of `toBN(10).pow(18)`
after both transactions were submitted, where the claim has it return 2. -/
theorem qualifyAndMintTBTC_minted_rejected :
    EthereumHelpers.readTransfer ⟨[.Transfer ⟨25 * 10 ^ 17⟩]⟩ = some ⟨25 * 10 ^ 17⟩ ∧
    (depositAt "0xD2").qualifyAndMintTBTC mintingWorld =
      ⟨.rejected (.typeError "num.bitLength is not a function"),
        [.depositTokenApprove "0xFEED" "0xD2",
          .unqualifiedDepositToTbtc "0xD2"
            [.buffer [1, 0, 0, 0], .buffer [1, 171], .buffer [2, 205], .buffer [0, 0, 0, 0],
              .integer 1, .buffer [190, 239], .integer 3, .buffer [192, 222]]]⟩ ∧
    ((depositAt "0xD2").qualifyAndMintTBTC mintingWorld).result ≠
      .fulfilled (25 * 10 ^ 17 / 10 ^ 18) := by
  decide

/-! ## Failure propagation in the pipeline (C15) -/

/-- C15: in the pipeline a first call of `autoSubmit` builds, a rejected
`fundingTransaction` rejects `fundingConfirmations` and `proofTransaction` with
the same error, and the call starts at most the one search; a rejected
`fundingConfirmations` rejects `proofTransaction` with the same error, and the
call starts at most one search and one confirmation wait. No proof is
requested or submitted in either case. -/
theorem autoSubmit_failure_propagates (w : World) (d : Deposit) (rt : Runtime)
    (hFresh : d.autoSubmittingState = none) :
    (∀ e, (d.autoSubmit w rt).state.fundingTransaction = .rejected e →
      (d.autoSubmit w rt).state.fundingConfirmations = .rejected e ∧
      (d.autoSubmit w rt).state.proofTransaction = .rejected e ∧
      ∃ started, (d.autoSubmit w rt).runtime.started = rt.started ++ started ∧
        started.length ≤ 1 ∧ ∀ s ∈ started, ∃ a v, s = Started.findOrWaitFor a v) ∧
    (∀ e, (d.autoSubmit w rt).state.fundingConfirmations = .rejected e →
      (d.autoSubmit w rt).state.proofTransaction = .rejected e ∧
      ∃ started, (d.autoSubmit w rt).runtime.started = rt.started ++ started ∧
        started.length ≤ 2 ∧
        ∀ s ∈ started, (∃ a v, s = Started.findOrWaitFor a v) ∨
          (∃ t n, s = Started.waitForConfirmations t n)) := by
  simp only [Deposit.autoSubmit, hFresh]
  constructor
  · intro e h
    simp only [h, Deposit.fundingConfirmationsStage, Deposit.proofTransactionStage,
      List.append_nil, true_and]
    refine ⟨(d.fundingTransactionStage w).2, rfl, ?_, ?_⟩
    · unfold Deposit.fundingTransactionStage
      split <;> simp
    · unfold Deposit.fundingTransactionStage
      split <;> simp
  · intro e h
    simp only [h, Deposit.proofTransactionStage, List.append_nil, true_and]
    refine ⟨(d.fundingTransactionStage w).2 ++
      (Deposit.fundingConfirmationsStage w (d.fundingTransactionStage w).1).2,
      by simp [List.append_assoc], ?_, ?_⟩
    · unfold Deposit.fundingConfirmationsStage Deposit.fundingTransactionStage
      repeat' split
      all_goals simp
    · unfold Deposit.fundingConfirmationsStage Deposit.fundingTransactionStage
      repeat' split
      all_goals simp

/-- C15 at a world whose search fails and at a world whose confirmation wait
fails. -/
theorem autoSubmit_failure_propagates_witness :
    (((depositAt "0xD2").autoSubmit searchFailingWorld ⟨0, []⟩).state.fundingConfirmations =
        .rejected (.error "electrum down") ∧
      ((depositAt "0xD2").autoSubmit searchFailingWorld ⟨0, []⟩).state.proofTransaction =
        .rejected (.error "electrum down")) ∧
    ((depositAt "0xD2").autoSubmit waitFailingWorld ⟨0, []⟩).state.proofTransaction =
      .rejected (.error "reorg") :=
  ⟨⟨((autoSubmit_failure_propagates searchFailingWorld (depositAt "0xD2") ⟨0, []⟩ rfl).1
      (.error "electrum down") (by decide)).1,
    ((autoSubmit_failure_propagates searchFailingWorld (depositAt "0xD2") ⟨0, []⟩ rfl).1
      (.error "electrum down") (by decide)).2.1⟩,
    ((autoSubmit_failure_propagates waitFailingWorld (depositAt "0xD2") ⟨0, []⟩ rfl).2
      (.error "reorg") (by decide)).1⟩

/-! ## Contract resolution (C16) -/

/-- When every entry has deployment info, the loop succeeds and assigns one
handle per entry, in order, with the deployed address. -/
theorem assignContracts_complete (account : Address) (networkId : Nat)
    (l : List (Artifact × String))
    (h : ∀ p ∈ l, p.1.networks networkId ≠ none) :
    (DepositFactory.assignContracts account networkId l).result = .ok () ∧
    (DepositFactory.assignContracts account networkId l).assigned.map Prod.fst =
      l.map Prod.snd ∧
    ∀ p ∈ l, ∀ address, p.1.networks networkId = some address →
      (p.2, (⟨address, account⟩ : ContractHandle)) ∈
        (DepositFactory.assignContracts account networkId l).assigned := by
  induction l with
  | nil => simp [DepositFactory.assignContracts]
  | cons p rest ih =>
    obtain ⟨artifact, propertyName⟩ := p
    have hHead := h (artifact, propertyName) (List.mem_cons_self _ _)
    have ih' := ih (fun q hq => h q (List.mem_cons_of_mem _ hq))
    cases hn : artifact.networks networkId with
    | none => exact absurd hn hHead
    | some address =>
      simp only [DepositFactory.assignContracts, lookupAddress, hn]
      refine ⟨ih'.1, by simp [ih'.2.1], ?_⟩
      intro q hq address' hq'
      rcases List.mem_cons.mp hq with hEq | hMem
      · subst hEq
        simp only at hq'
        rw [hn] at hq'
        cases hq'
        exact List.mem_cons_self _ _
      · exact List.mem_cons_of_mem _ (ih'.2.2 q hMem address' hq')

/-- When an entry lacks deployment info, the loop throws the error that names an
entry without deployment info. -/
theorem assignContracts_missing (account : Address) (networkId : Nat)
    (l : List (Artifact × String))
    (h : ∃ p ∈ l, p.1.networks networkId = none) :
    ∃ p ∈ l, p.1.networks networkId = none ∧
      (DepositFactory.assignContracts account networkId l).result =
        .error (.error (noDeploymentMessage p.1.contractName networkId)) := by
  induction l with
  | nil => simp at h
  | cons p rest ih =>
    obtain ⟨artifact, propertyName⟩ := p
    cases hn : artifact.networks networkId with
    | none =>
      exact ⟨(artifact, propertyName), List.mem_cons_self _ _, hn, by
        simp [DepositFactory.assignContracts, lookupAddress, hn]⟩
    | some address =>
      obtain ⟨q, hq, hqn⟩ := h
      rcases List.mem_cons.mp hq with hEq | hMem
      · subst hEq
        simp only at hqn
        rw [hn] at hqn
        cases hqn
      · obtain ⟨r, hr, hrn, hres⟩ := ih ⟨q, hMem, hqn⟩
        exact ⟨r, List.mem_cons_of_mem _ hr, hrn, by
          simp [DepositFactory.assignContracts, lookupAddress, hn, hres]⟩

/-- C16: if one of the seven artifacts has no deployment info for the network
id, `resolveContracts` fails with the error `No deployment info found for
contract NAME, network ID ID` naming such an artifact and the network id;
otherwise it succeeds and assigns the seven contract properties, each handle
with the deployed address of its artifact for the network. -/
theorem resolveContracts_spec (w : World) (artifacts : Artifacts) :
    ((∃ p ∈ DepositFactory.contracts artifacts, p.1.networks w.getId = none) →
      ∃ p ∈ DepositFactory.contracts artifacts, p.1.networks w.getId = none ∧
        (DepositFactory.resolveContracts w artifacts).result =
          .error (.error ("No deployment info found for contract " ++ p.1.contractName ++
            ", network ID " ++ toString w.getId))) ∧
    ((∀ p ∈ DepositFactory.contracts artifacts, p.1.networks w.getId ≠ none) →
      (DepositFactory.resolveContracts w artifacts).result = .ok () ∧
      (DepositFactory.resolveContracts w artifacts).assigned.map Prod.fst =
        ["constantsContract", "systemContract", "tokenContract", "depositTokenContract",
          "feeRebateTokenContract", "depositFactoryContract", "vendingMachineContract"] ∧
      ∀ p ∈ DepositFactory.contracts artifacts, ∀ address,
        p.1.networks w.getId = some address →
        (p.2, (⟨address, w.defaultAccount⟩ : ContractHandle)) ∈
          (DepositFactory.resolveContracts w artifacts).assigned) := by
  constructor
  · intro h
    exact assignContracts_missing w.defaultAccount w.getId _ h
  · intro h
    have := assignContracts_complete w.defaultAccount w.getId _ h
    exact ⟨this.1, by rw [DepositFactory.resolveContracts, this.2.1]; rfl, this.2.2⟩

/-- C16 at the sample artifacts, on network 3, with and without a token
deployment. -/
theorem resolveContracts_spec_witness :
    (∃ p ∈ DepositFactory.contracts incompleteArtifacts, p.1.networks sampleWorld.getId = none ∧
        (DepositFactory.resolveContracts sampleWorld incompleteArtifacts).result =
          .error (.error ("No deployment info found for contract " ++ p.1.contractName ++
            ", network ID " ++ toString sampleWorld.getId))) ∧
    (DepositFactory.resolveContracts sampleWorld sampleArtifacts).result = .ok () :=
  ⟨(resolveContracts_spec sampleWorld incompleteArtifacts).1
      ⟨(incompleteArtifacts.TBTCTokenJSON, "tokenContract"), by
        simp [DepositFactory.contracts], rfl⟩,
    ((resolveContracts_spec sampleWorld sampleArtifacts).2 (by
      intro p hp
      simp only [DepositFactory.contracts, List.mem_cons, List.mem_singleton,
        List.not_mem_nil, or_false] at hp
      rcases hp with h | h | h | h | h | h | h <;> subst h <;> decide)).1⟩

/-! ## Submitted redemption request (C17, C19, C20) -/

/-- The little-endian encoding has the requested number of bytes. -/
theorem littleEndianBytes_length (count v : Nat) :
    (littleEndianBytes count v).length = count := by
  induction count generalizing v with
  | zero => rfl
  | succ k ih => simp [littleEndianBytes, ih]

/-- Every byte of the little-endian encoding is below 256. -/
theorem littleEndianBytes_lt (count v : Nat) :
    ∀ b ∈ littleEndianBytes count v, b < 256 := by
  induction count generalizing v with
  | zero => simp [littleEndianBytes]
  | succ k ih =>
    intro b hb
    simp only [littleEndianBytes, List.mem_cons] at hb
    rcases hb with h | h
    · omega
    · exact ih _ b h

/-- Decoding the little-endian encoding gives the value modulo `256 ^ count`. -/
theorem littleEndianValue_bytes (count v : Nat) :
    littleEndianValue (littleEndianBytes count v) = v % 256 ^ count := by
  induction count generalizing v with
  | zero => simp [littleEndianBytes, littleEndianValue, Nat.mod_one]
  | succ k ih =>
    simp only [littleEndianBytes, littleEndianValue, ih]
    rw [pow_succ, Nat.mul_comm (256 ^ k) 256, Nat.mod_mul]

/-- For `f ≤ u < 2^64` the bn.js call encodes `u - f` in 8 bytes. -/
theorem toArrayLikeLE_of_le (u f : Nat) (hfu : f ≤ u) (hu : u < 2 ^ 64) :
    BN.toArrayLikeLE ((u : Int) - (f : Int)) 8 = .ok (littleEndianBytes 8 (u - f)) := by
  have hcast : ((u : Int) - (f : Int)) = ((u - f : Nat) : Int) := by omega
  have hlt : u - f < 256 ^ 8 := by
    have : (256 : Nat) ^ 8 = 2 ^ 64 := by norm_num
    omega
  rw [hcast]
  simp only [BN.toArrayLikeLE, Int.natAbs_ofNat, hlt, if_true]

/-- For `f ≤ u < 2^64` lines 657-666 of `requestRedemption` give the 8
little-endian bytes of `u - f`. -/
theorem outputValueBytes_of_le (w : World) (d : Deposit)
    (hFee : w.estimateFee ≤ w.utxoSize d.address) (hSize : w.utxoSize d.address < 2 ^ 64) :
    d.outputValueBytes w = .ok (littleEndianBytes 8 (w.utxoSize d.address - w.estimateFee)) :=
  toArrayLikeLE_of_le _ _ hFee hSize

/-- C17, the code at UTXO size 100000 and fee 150: the caller owns deposit
`0xD2`, the address decodes and the balance covers the requirement. The output
value lines (657-666) give the 8 little-endian bytes of 99850, but the call is
rejected by its first statement and submits no transaction, so no output value
is submitted. -/
theorem requestRedemption_outputValue_rejected :
    sampleWorld.utxoSize "0xD2" = 100000 ∧
    sampleWorld.estimateFee = 150 ∧
    (depositAt "0xD2").getOwner sampleWorld = sampleWorld.defaultAccount ∧
    (depositAt "0xD2").outputValueBytes sampleWorld = .ok [10, 134, 1, 0, 0, 0, 0, 0] ∧
    littleEndianValue [10, 134, 1, 0, 0, 0, 0, 0] = 100000 - 150 ∧
    ((depositAt "0xD2").requestRedemption sampleWorld "tb1qsample").result =
      .error (.typeError "Cannot read property address of undefined") ∧
    ((depositAt "0xD2").requestRedemption sampleWorld "tb1qsample").sent = [] := by
  decide

/-- On the vending machine route lines 668-702 submit nothing: the call of
`this.factory.tokenContract.approve` throws before any send. -/
theorem submitRedemption_vendingMachine_throws (w : World) (d : Deposit)
    (redemptionCost : Nat) (outputValueBytes : Bytes) (redeemerOutputScript : String) :
    d.submitRedemption w true redemptionCost outputValueBytes redeemerOutputScript =
      ⟨.error (notAFunction "this.factory.tokenContract.approve"), []⟩ := by
  rfl

/-- C19, the code where every mined transaction logs the `RedemptionRequested`
event and the balance covers the requirement: for the deposit `0xD2` owned by
the caller and for the deposit `0xD1` owned by the vending machine,
`requestRedemption` is rejected with a `TypeError` by its first statement, so
there is no successful call and neither route is taken; and on the vending
machine route the submitting lines (668-702) throw on
`this.factory.tokenContract.approve` before anything is sent. -/
theorem requestRedemption_route_rejected :
    (depositAt "0xD2").getOwner redeemableWorld = redeemableWorld.defaultAccount ∧
    (depositAt "0xD2").requestRedemption redeemableWorld "tb1qsample" =
      ⟨.error (.typeError "Cannot read property address of undefined"), []⟩ ∧
    (depositAt "0xD1").getOwner redeemableWorld = redeemableWorld.vendingMachineAddress ∧
    (depositAt "0xD1").requestRedemption redeemableWorld "tb1qsample" =
      ⟨.error (.typeError "Cannot read property address of undefined"), []⟩ ∧
    (depositAt "0xD1").submitRedemption redeemableWorld true 0 [10, 134, 1, 0, 0, 0, 0, 0]
        "0x030001aa" =
      ⟨.error (.typeError "this.factory.tokenContract.approve is not a function"), []⟩ := by
  decide

/-- A hex digit decodes to the value it was printed from. -/
theorem hexValue_hexDigit (k : Nat) (h : k < 16) : hexValue (hexDigit k) = some k := by
  interval_cases k <;> decide

/-- Decoding the hex text of a buffer gives the buffer back. -/
theorem hexCharsToBytes_bytesToHexChars (bs : Bytes) (h : ∀ b ∈ bs, b < 256) :
    hexCharsToBytes (bytesToHexChars bs) = bs := by
  induction bs with
  | nil => rfl
  | cons b rest ih =>
    have hb : b < 256 := h b (List.mem_cons_self _ _)
    have hrest := ih (fun c hc => h c (List.mem_cons_of_mem _ hc))
    have h1 : hexValue (hexDigit (b / 16 % 16)) = some (b / 16 % 16) :=
      hexValue_hexDigit _ (Nat.mod_lt _ (by norm_num))
    have h2 : hexValue (hexDigit (b % 16)) = some (b % 16) :=
      hexValue_hexDigit _ (Nat.mod_lt _ (by norm_num))
    simp only [bytesToHexChars, byteToHex, List.cons_append, List.nil_append, hexCharsToBytes,
      h1, h2, hrest]
    congr 1
    omega

/-- The hex text of a buffer has two characters per byte. -/
theorem bytesToHexChars_length (bs : Bytes) : (bytesToHexChars bs).length = 2 * bs.length := by
  induction bs with
  | nil => rfl
  | cons b rest ih =>
    simp only [bytesToHexChars, byteToHex, List.length_append, List.length_cons,
      List.length_nil, ih]
    omega

/-- C20: for a raw output script `s` of `n < 256` bytes, the
`redeemerOutputScript` that `requestRedemption` builds is `0x` followed by the
hex text of the length byte `n` followed by `s`; it has `2 + 2 (n + 1)`
characters, and decoding the hex text and dropping the first byte gives `s`
back. -/
theorem redeemerOutputScript_shape (s : Bytes) (hLength : s.length < 256)
    (hBytes : ∀ b ∈ s, b < 256) :
    redeemerOutputScriptOf s = some ("0x" ++ Buffer.toHex (s.length :: s)) ∧
    ("0x" ++ Buffer.toHex (s.length :: s)).length = 2 + 2 * (s.length + 1) ∧
    (Buffer.fromHex (Buffer.toHex (s.length :: s))).tail = s := by
  refine ⟨?_, ?_, ?_⟩
  · simp [redeemerOutputScriptOf, Buffer.fromLength, Nat.mod_eq_of_lt hLength]
  · simp [Buffer.toHex, String.length_append, bytesToHexChars_length]
    rfl
  · have hAll : ∀ b ∈ s.length :: s, b < 256 := by
      intro b hb
      rcases List.mem_cons.mp hb with h | h
      · omega
      · exact hBytes b h
    simp [Buffer.fromHex, Buffer.toHex, hexCharsToBytes_bytesToHexChars _ hAll]

/-- C20 at the three byte script `00 01 aa`. -/
theorem redeemerOutputScript_shape_witness :
    redeemerOutputScriptOf [0, 1, 170] = some ("0x" ++ Buffer.toHex [3, 0, 1, 170]) ∧
    ("0x" ++ Buffer.toHex [3, 0, 1, 170]).length = 2 + 2 * (3 + 1) ∧
    (Buffer.fromHex (Buffer.toHex [3, 0, 1, 170])).tail = [0, 1, 170] :=
  redeemerOutputScript_shape [0, 1, 170] (by decide) (by decide)

end Tbtc
